import Mathlib

/-! Verification of the custom transfer adapter of git-lfs (`transfer/custom.go`).

The Go source is shallowly embedded: every function of the source file is
translated to a Lean definition of the same name.  Process and pipe I/O is made
explicit by passing the outcome of each I/O step (an environment record) to the
function that performs it, and the side effects a function performs (callbacks
invoked, pipes closed, processes killed, bytes written) are returned as explicit
values and traces.  `encoding/json` is modelled by a JSON value type together
with the marshalling and unmarshalling rules of the Go standard library that
the protocol messages exercise.
-/

namespace GitLfs

/-- A JSON value as handled by Go's `encoding/json` for this protocol.
Numbers are restricted to integers: every numeric field of the protocol
messages is a Go `int`/`int64`, and `json.Marshal` of such fields emits
integer literals. -/
inductive JVal where
  | str (s : String)
  | int (n : Int)
  | bool (b : Bool)
  | null
  | obj (fields : List (String × JVal))
deriving Repr

/-- Decimal digit character for `n < 10` (as emitted by Go's `strconv`). -/
def digitChar : Nat → Char
  | 0 => '0'
  | 1 => '1'
  | 2 => '2'
  | 3 => '3'
  | 4 => '4'
  | 5 => '5'
  | 6 => '6'
  | 7 => '7'
  | 8 => '8'
  | 9 => '9'
  | _ => '0'

/-- Decimal digits of a natural number, most significant first
(Go `strconv.FormatUint`). -/
def natChars (n : Nat) : List Char :=
  if _h : n < 10 then [digitChar n]
  else natChars (n / 10) ++ [digitChar (n % 10)]
decreasing_by exact Nat.div_lt_self (by omega) (by omega)

/-- Decimal rendering of an integer (Go `strconv.FormatInt`, as used by
`json.Marshal` for `int`/`int64` fields). -/
def intChars (n : Int) : List Char :=
  (if n < 0 then ['-'] else []) ++ natChars n.natAbs

/-- Hexadecimal digit character for `n < 16`, lower case. -/
def hexDigit : Nat → Char
  | 0 => '0'
  | 1 => '1'
  | 2 => '2'
  | 3 => '3'
  | 4 => '4'
  | 5 => '5'
  | 6 => '6'
  | 7 => '7'
  | 8 => '8'
  | 9 => '9'
  | 10 => 'a'
  | 11 => 'b'
  | 12 => 'c'
  | 13 => 'd'
  | 14 => 'e'
  | 15 => 'f'
  | _ => '0'

/-- Escaping of one character inside a JSON string literal, following Go's
`encoding/json` encoder: quote, backslash, newline, carriage return and tab
get two-character escapes, the remaining control characters get `\u00XX`
escapes, and the HTML-sensitive characters are escaped since `json.Marshal`
escapes HTML by default.  Every other character is emitted as itself. -/
def escapeChar (c : Char) : List Char :=
  if c = '"' then ['\\', '"']
  else if c = '\\' then ['\\', '\\']
  else if c = '\n' then ['\\', 'n']
  else if c = '\r' then ['\\', 'r']
  else if c = '\t' then ['\\', 't']
  else if c.toNat < 32 then
    ['\\', 'u', '0', '0', hexDigit (c.toNat / 16), hexDigit (c.toNat % 16)]
  else if c = '<' then ['\\', 'u', '0', '0', '3', 'c']
  else if c = '>' then ['\\', 'u', '0', '0', '3', 'e']
  else if c = '&' then ['\\', 'u', '0', '0', '2', '6']
  else [c]

/-- Escaping of a whole string body (no surrounding quotes). -/
def escapeString (l : List Char) : List Char :=
  l.flatMap escapeChar

/-- The character `{` (written by code point to keep it out of string
literals). -/
def lbrace : Char := Char.ofNat 123

/-- The character `}` (written by code point). -/
def rbrace : Char := Char.ofNat 125

mutual

/-- Byte rendering of a JSON value, as produced by Go's `json.Marshal`:
object fields in the order the marshaller emits them (struct declaration
order for the structs of this protocol). -/
def encodeJVal : JVal → List Char
  | .str s => '"' :: escapeString s.data ++ ['"']
  | .int n => intChars n
  | .bool b => if b then "true".data else "false".data
  | .null => "null".data
  | .obj fs => lbrace :: encodeFields fs ++ [rbrace]
termination_by v => sizeOf v
decreasing_by all_goals simp_wf

/-- Byte rendering of the comma-separated field list of a JSON object; each
member is rendered as `"key":value`. -/
def encodeFields : List (String × JVal) → List Char
  | [] => []
  | [(k, v)] => '"' :: escapeString k.data ++ '"' :: ':' :: encodeJVal v
  | (k, v) :: rest =>
      ('"' :: escapeString k.data ++ '"' :: ':' :: encodeJVal v)
        ++ ',' :: encodeFields rest
termination_by fs => sizeOf fs
decreasing_by all_goals (simp_wf <;> omega)

end

/-- Structured error record carried inside protocol responses.
Modelled from the spec: `api.ObjectError` is not under `src/`; the spec's §3
message list (`InitResponse{error?}`, `TransferResponse{..., error?}`) and the
source's use of `comp.Error.Error()` describe a structured error value with a
code and a message, serialized under the field names `code` and `message`. -/
structure ObjectError where
  code : Int
  message : String
deriving DecidableEq, Repr

/-- Pre-resolved resource action needed by the external process.
Modelled from the spec: `api.LinkRelation` is not under `src/`; the spec's §3
("a resource action: pre-resolved URL/metadata") and §6 describe a target
location plus metadata, serialized under `href` and `header`.  The header map
is modelled as an association list in emission order. -/
structure LinkRelation where
  href : String
  header : List (String × String)
deriving DecidableEq, Repr

/-- Go struct `customAdapterInitRequest` (JSON field names `operation`,
`concurrent`, `concurrenttransfers`). -/
structure customAdapterInitRequest where
  operation : String
  concurrent : Bool
  concurrentTransfers : Int
deriving DecidableEq, Repr

/-- Go struct `customAdapterInitResponse` (JSON field `error`, omitted when
empty; a `nil` pointer is `none`). -/
structure customAdapterInitResponse where
  error : Option ObjectError
deriving DecidableEq, Repr

/-- Go struct `customAdapterUploadRequest` (JSON fields `oid`, `size`, `path`,
`action`). -/
structure customAdapterUploadRequest where
  oid : String
  size : Int
  path : String
  action : Option LinkRelation
deriving DecidableEq, Repr

/-- Go struct `customAdapterDownloadRequest` (JSON fields `oid`, `size`,
`action`). -/
structure customAdapterDownloadRequest where
  oid : String
  size : Int
  action : Option LinkRelation
deriving DecidableEq, Repr

/-- Go struct `customAdapterTransferResponse` (JSON fields `oid`, `path`
(omitempty, always blank for upload), `error` (omitempty)). -/
structure customAdapterTransferResponse where
  oid : String
  path : String
  error : Option ObjectError
deriving DecidableEq, Repr

/-- Go struct `customAdapterTerminateRequest` (JSON field `complete`). -/
structure customAdapterTerminateRequest where
  complete : Bool
deriving DecidableEq, Repr

/-- Go struct `customAdapterProgressResponse` (JSON fields `oid`,
`bytesSoFar`, `bytesSinceLast`). -/
structure customAdapterProgressResponse where
  oid : String
  bytesSoFar : Int
  bytesSinceLast : Int
deriving DecidableEq, Repr

/-- Go zero value of `customAdapterInitResponse`, the pointee of
`&customAdapterInitResponse{...}` with no fields set. -/
def zeroInitResponse : customAdapterInitResponse := ⟨none⟩

/-- Go zero value of `customAdapterProgressResponse`. -/
def zeroProgressResponse : customAdapterProgressResponse := ⟨"", 0, 0⟩

/-- Go zero value of `customAdapterTransferResponse`. -/
def zeroTransferResponse : customAdapterTransferResponse := ⟨"", "", none⟩

/-- Go zero value of `customAdapterInitRequest`. -/
def zeroInitRequest : customAdapterInitRequest := ⟨"", false, 0⟩

/-- Go zero value of `customAdapterUploadRequest`. -/
def zeroUploadRequest : customAdapterUploadRequest := ⟨"", 0, "", none⟩

/-- Go zero value of `customAdapterDownloadRequest`. -/
def zeroDownloadRequest : customAdapterDownloadRequest := ⟨"", 0, none⟩

/-- Go zero value of `customAdapterTerminateRequest`. -/
def zeroTerminateRequest : customAdapterTerminateRequest := ⟨false⟩

/-- Go zero value of `LinkRelation`. -/
def zeroLinkRelation : LinkRelation := ⟨"", []⟩

/-- Go zero value of `ObjectError`. -/
def zeroObjectError : ObjectError := ⟨0, ""⟩

/-- JSON marshalling of a `LinkRelation` (fields in declaration order). -/
def marshalLinkRelation (l : LinkRelation) : JVal :=
  .obj [("href", .str l.href),
        ("header", .obj (l.header.map fun kv => (kv.1, .str kv.2)))]

/-- JSON marshalling of an `ObjectError`. -/
def marshalObjectError (e : ObjectError) : JVal :=
  .obj [("code", .int e.code), ("message", .str e.message)]

/-- JSON marshalling of a `customAdapterInitRequest`, exactly the record
`json.Marshal` produces (struct field order, lower-case tag names). -/
def marshalInitRequest (r : customAdapterInitRequest) : JVal :=
  .obj [("operation", .str r.operation),
        ("concurrent", .bool r.concurrent),
        ("concurrenttransfers", .int r.concurrentTransfers)]

/-- JSON marshalling of a `customAdapterUploadRequest`; the `action` pointer
field has no `omitempty`, so a `nil` pointer is emitted as `null`. -/
def marshalUploadRequest (r : customAdapterUploadRequest) : JVal :=
  .obj [("oid", .str r.oid),
        ("size", .int r.size),
        ("path", .str r.path),
        ("action", match r.action with
                   | none => .null
                   | some l => marshalLinkRelation l)]

/-- JSON marshalling of a `customAdapterDownloadRequest`. -/
def marshalDownloadRequest (r : customAdapterDownloadRequest) : JVal :=
  .obj [("oid", .str r.oid),
        ("size", .int r.size),
        ("action", match r.action with
                   | none => .null
                   | some l => marshalLinkRelation l)]

/-- JSON marshalling of a `customAdapterTerminateRequest`. -/
def marshalTerminateRequest (r : customAdapterTerminateRequest) : JVal :=
  .obj [("complete", .bool r.complete)]

/-! Unmarshalling.  `json.Unmarshal(b, ptr)` into a struct starts from the
pointee's current value and overwrites exactly the fields present in the JSON
object: unknown fields are ignored, absent fields keep their current value,
duplicate keys are processed in order (last wins), a `null` value is a no-op
for non-pointer fields and sets a pointer field to `nil`, and a value of the
wrong JSON type is an error.  Field names are matched exactly here; Go would
additionally accept a case-insensitive match, which no message of this
protocol relies on (the wire contract is case-sensitive per the spec).  A
failed unmarshal is modelled as leaving the target unchanged, where Go may
have partially written it; the only values this could affect are candidate
pointees that are never successfully extracted afterwards (the value-type
assertions in `DoTransfer` fail first). -/

/-- Unmarshalling of one JSON object member into an `ObjectError`. -/
def setObjectErrorField (cur : ObjectError) (k : String) (v : JVal) : Option ObjectError :=
  if k = "code" then
    match v with
    | .int n => some { cur with code := n }
    | .null => some cur
    | _ => none
  else if k = "message" then
    match v with
    | .str s => some { cur with message := s }
    | .null => some cur
    | _ => none
  else some cur

/-- Unmarshalling of a JSON value into an `ObjectError`. -/
def decodeObjectErrorInto (v : JVal) (cur : ObjectError) : Option ObjectError :=
  match v with
  | .null => some cur
  | .obj fs => fs.foldlM (fun acc kv => setObjectErrorField acc kv.1 kv.2) cur
  | _ => none

/-- Unmarshalling of a JSON object into a string-to-string map.  Go reuses the
existing map; starting from the zero (nil) map, the observable content is
exactly the object's members, which is what this returns. -/
def decodeHeaderPairs : List (String × JVal) → Option (List (String × String))
  | [] => some []
  | kv :: rest =>
    match kv.2 with
    | .str s => (decodeHeaderPairs rest).map fun tail => (kv.1, s) :: tail
    | _ => none

/-- Unmarshalling of one JSON object member into a `LinkRelation`. -/
def setLinkRelationField (cur : LinkRelation) (k : String) (v : JVal) : Option LinkRelation :=
  if k = "href" then
    match v with
    | .str s => some { cur with href := s }
    | .null => some cur
    | _ => none
  else if k = "header" then
    match v with
    | .obj fs => (decodeHeaderPairs fs).map fun h => { cur with header := h }
    | .null => some cur
    | _ => none
  else some cur

/-- Unmarshalling of a JSON value into a `LinkRelation`. -/
def decodeLinkRelationInto (v : JVal) (cur : LinkRelation) : Option LinkRelation :=
  match v with
  | .null => some cur
  | .obj fs => fs.foldlM (fun acc kv => setLinkRelationField acc kv.1 kv.2) cur
  | _ => none

/-- Unmarshalling of one member into a `customAdapterInitResponse`; the
`error` field is a pointer: `null` sets it to `nil`, an object is decoded
into the existing pointee (or a fresh zero value when `nil`). -/
def setInitResponseField (cur : customAdapterInitResponse) (k : String) (v : JVal) :
    Option customAdapterInitResponse :=
  if k = "error" then
    match v with
    | .null => some { cur with error := none }
    | .obj _ =>
      (decodeObjectErrorInto v (cur.error.getD zeroObjectError)).map
        fun e => { cur with error := some e }
    | _ => none
  else some cur

/-- Unmarshalling of a JSON value into a `customAdapterInitResponse`. -/
def decodeInitResponseInto (v : JVal) (cur : customAdapterInitResponse) :
    Option customAdapterInitResponse :=
  match v with
  | .null => some cur
  | .obj fs => fs.foldlM (fun acc kv => setInitResponseField acc kv.1 kv.2) cur
  | _ => none

/-- Unmarshalling of one member into a `customAdapterProgressResponse`. -/
def setProgressResponseField (cur : customAdapterProgressResponse) (k : String) (v : JVal) :
    Option customAdapterProgressResponse :=
  if k = "oid" then
    match v with
    | .str s => some { cur with oid := s }
    | .null => some cur
    | _ => none
  else if k = "bytesSoFar" then
    match v with
    | .int n => some { cur with bytesSoFar := n }
    | .null => some cur
    | _ => none
  else if k = "bytesSinceLast" then
    match v with
    | .int n => some { cur with bytesSinceLast := n }
    | .null => some cur
    | _ => none
  else some cur

/-- Unmarshalling of a JSON value into a `customAdapterProgressResponse`. -/
def decodeProgressResponseInto (v : JVal) (cur : customAdapterProgressResponse) :
    Option customAdapterProgressResponse :=
  match v with
  | .null => some cur
  | .obj fs => fs.foldlM (fun acc kv => setProgressResponseField acc kv.1 kv.2) cur
  | _ => none

/-- Unmarshalling of one member into a `customAdapterTransferResponse`. -/
def setTransferResponseField (cur : customAdapterTransferResponse) (k : String) (v : JVal) :
    Option customAdapterTransferResponse :=
  if k = "oid" then
    match v with
    | .str s => some { cur with oid := s }
    | .null => some cur
    | _ => none
  else if k = "path" then
    match v with
    | .str s => some { cur with path := s }
    | .null => some cur
    | _ => none
  else if k = "error" then
    match v with
    | .null => some { cur with error := none }
    | .obj _ =>
      (decodeObjectErrorInto v (cur.error.getD zeroObjectError)).map
        fun e => { cur with error := some e }
    | _ => none
  else some cur

/-- Unmarshalling of a JSON value into a `customAdapterTransferResponse`. -/
def decodeTransferResponseInto (v : JVal) (cur : customAdapterTransferResponse) :
    Option customAdapterTransferResponse :=
  match v with
  | .null => some cur
  | .obj fs => fs.foldlM (fun acc kv => setTransferResponseField acc kv.1 kv.2) cur
  | _ => none

/-- Unmarshalling of one member into a `customAdapterInitRequest`. -/
def setInitRequestField (cur : customAdapterInitRequest) (k : String) (v : JVal) :
    Option customAdapterInitRequest :=
  if k = "operation" then
    match v with
    | .str s => some { cur with operation := s }
    | .null => some cur
    | _ => none
  else if k = "concurrent" then
    match v with
    | .bool b => some { cur with concurrent := b }
    | .null => some cur
    | _ => none
  else if k = "concurrenttransfers" then
    match v with
    | .int n => some { cur with concurrentTransfers := n }
    | .null => some cur
    | _ => none
  else some cur

/-- Unmarshalling of a JSON value into a `customAdapterInitRequest`. -/
def decodeInitRequestInto (v : JVal) (cur : customAdapterInitRequest) :
    Option customAdapterInitRequest :=
  match v with
  | .null => some cur
  | .obj fs => fs.foldlM (fun acc kv => setInitRequestField acc kv.1 kv.2) cur
  | _ => none

/-- Unmarshalling of one member into a `customAdapterUploadRequest`; the
`action` field is a pointer to a `LinkRelation`. -/
def setUploadRequestField (cur : customAdapterUploadRequest) (k : String) (v : JVal) :
    Option customAdapterUploadRequest :=
  if k = "oid" then
    match v with
    | .str s => some { cur with oid := s }
    | .null => some cur
    | _ => none
  else if k = "size" then
    match v with
    | .int n => some { cur with size := n }
    | .null => some cur
    | _ => none
  else if k = "path" then
    match v with
    | .str s => some { cur with path := s }
    | .null => some cur
    | _ => none
  else if k = "action" then
    match v with
    | .null => some { cur with action := none }
    | .obj _ =>
      (decodeLinkRelationInto v (cur.action.getD zeroLinkRelation)).map
        fun l => { cur with action := some l }
    | _ => none
  else some cur

/-- Unmarshalling of a JSON value into a `customAdapterUploadRequest`. -/
def decodeUploadRequestInto (v : JVal) (cur : customAdapterUploadRequest) :
    Option customAdapterUploadRequest :=
  match v with
  | .null => some cur
  | .obj fs => fs.foldlM (fun acc kv => setUploadRequestField acc kv.1 kv.2) cur
  | _ => none

/-- Unmarshalling of one member into a `customAdapterDownloadRequest`. -/
def setDownloadRequestField (cur : customAdapterDownloadRequest) (k : String) (v : JVal) :
    Option customAdapterDownloadRequest :=
  if k = "oid" then
    match v with
    | .str s => some { cur with oid := s }
    | .null => some cur
    | _ => none
  else if k = "size" then
    match v with
    | .int n => some { cur with size := n }
    | .null => some cur
    | _ => none
  else if k = "action" then
    match v with
    | .null => some { cur with action := none }
    | .obj _ =>
      (decodeLinkRelationInto v (cur.action.getD zeroLinkRelation)).map
        fun l => { cur with action := some l }
    | _ => none
  else some cur

/-- Unmarshalling of a JSON value into a `customAdapterDownloadRequest`. -/
def decodeDownloadRequestInto (v : JVal) (cur : customAdapterDownloadRequest) :
    Option customAdapterDownloadRequest :=
  match v with
  | .null => some cur
  | .obj fs => fs.foldlM (fun acc kv => setDownloadRequestField acc kv.1 kv.2) cur
  | _ => none

/-- Unmarshalling of one member into a `customAdapterTerminateRequest`. -/
def setTerminateRequestField (cur : customAdapterTerminateRequest) (k : String) (v : JVal) :
    Option customAdapterTerminateRequest :=
  if k = "complete" then
    match v with
    | .bool b => some { cur with complete := b }
    | .null => some cur
    | _ => none
  else some cur

/-- Unmarshalling of a JSON value into a `customAdapterTerminateRequest`. -/
def decodeTerminateRequestInto (v : JVal) (cur : customAdapterTerminateRequest) :
    Option customAdapterTerminateRequest :=
  match v with
  | .null => some cur
  | .obj fs => fs.foldlM (fun acc kv => setTerminateRequestField acc kv.1 kv.2) cur
  | _ => none

/-- A Go `interface{}` value as stored in candidate-response slices: the
dynamic type together with the pointee (or bare) value.  The `ptr…`
constructors are interface values holding a pointer to the named struct
(built with `&` in the source); the `val…` constructors hold the bare struct
value and exist as the asserted types of the one-value type assertions in
`DoTransfer`. -/
inductive GoDyn where
  | ptrInitResp (v : customAdapterInitResponse)
  | ptrProgressResp (v : customAdapterProgressResponse)
  | ptrTransferResp (v : customAdapterTransferResponse)
  | ptrInitReq (v : customAdapterInitRequest)
  | ptrUploadReq (v : customAdapterUploadRequest)
  | ptrDownloadReq (v : customAdapterDownloadRequest)
  | ptrTerminateReq (v : customAdapterTerminateRequest)
  | valProgressResp (v : customAdapterProgressResponse)
  | valTransferResp (v : customAdapterTransferResponse)
deriving DecidableEq, Repr

/-- Go `json.Unmarshal(line, x)`: for an interface holding a pointer, decode
into the pointee; for a non-pointer value, Go returns an
`InvalidUnmarshalError` (modelled as `none`). -/
def decodeInto (v : JVal) : GoDyn → Option GoDyn
  | .ptrInitResp cur => (decodeInitResponseInto v cur).map .ptrInitResp
  | .ptrProgressResp cur => (decodeProgressResponseInto v cur).map .ptrProgressResp
  | .ptrTransferResp cur => (decodeTransferResponseInto v cur).map .ptrTransferResp
  | .ptrInitReq cur => (decodeInitRequestInto v cur).map .ptrInitReq
  | .ptrUploadReq cur => (decodeUploadRequestInto v cur).map .ptrUploadReq
  | .ptrDownloadReq cur => (decodeDownloadRequestInto v cur).map .ptrDownloadReq
  | .ptrTerminateReq cur => (decodeTerminateRequestInto v cur).map .ptrTerminateReq
  | .valProgressResp _ => none
  | .valTransferResp _ => none

/-- Go one-value type assertion `x.(customAdapterProgressResponse)`: succeeds
exactly when the dynamic type of `x` is the bare struct type.  The candidate
slice of `DoTransfer` is built from pointers, whose dynamic type is
`*customAdapterProgressResponse`, on which this assertion fails — and in the
one-value form a failed assertion is a run-time panic. -/
def assertValProgress : GoDyn → Option customAdapterProgressResponse
  | .valProgressResp v => some v
  | _ => none

/-- Go one-value type assertion `x.(customAdapterTransferResponse)` (see
`assertValProgress`). -/
def assertValTransfer : GoDyn → Option customAdapterTransferResponse
  | .valTransferResp v => some v
  | _ => none

/-- Go `error` values that the embedded functions produce or that the
environment injects, one constructor per construction site. -/
inductive GoErr where
  | eof
  | ioErr (msg : String)
  | wrapped (msg : String) (inner : GoErr)
  | noMatch
  | notInitialized
  | wrongContextType
  | objectNotFound
  | unexpectedOid (got expected : String)
  | transferError (e : ObjectError)
  | verifyFailed (msg : String)
  | exitErr (code : Int)
deriving DecidableEq, Repr

/-- One result of `ReadString` on the worker's buffered output: a full line
whose JSON parse is `v`, a full line that is not syntactically valid JSON, or
a read error (`ReadString` returning a non-nil error, e.g. EOF). -/
inductive ReadEvent where
  | line (v : JVal)
  | badLine
  | ioError (e : GoErr)
deriving Repr

/-- Observable side effects of the worker lifecycle functions on the process
and its pipes. -/
inductive Action where
  | sentInit (r : customAdapterInitRequest)
  | sentTerminate (complete : Bool)
  | closedStdin
  | closedStdout
  | waited
  | killed
deriving DecidableEq, Repr

/-- Transfer direction.  `transfer.Direction` is declared outside `src/`, but
`custom.go` fixes its shape: an adapter is bound to `Upload` xor `Download`
(the spec's §2). -/
inductive Direction where
  | Upload
  | Download
deriving DecidableEq, Repr

/-- Go struct `customAdapter`, including the `adapterBase` fields the source
reads (`name`, `direction`). -/
structure customAdapter where
  name : String
  direction : Direction
  path : String
  args : String
  concurrent : Bool
  originalConcurrency : Int
deriving Repr

/-- Go `newCustomAdapter(name, dir, path, args, concurrent)`: the adapter
over `newAdapterBase(name, dir, nil)` with `originalConcurrency` set to `3`.
(The `transferImpl` self-reference has no observable content here.) -/
def newCustomAdapter (name : String) (dir : Direction) (path args : String)
    (concurrent : Bool) : customAdapter :=
  ⟨name, dir, path, args, concurrent, 3⟩

/-- Go `customAdapter.Begin(maxConcurrency, cb, completion)`: downgrade the
incoming worker count to 1 when `concurrent` is false, record the original
request in `originalConcurrency`, and hand the downgraded count to
`adapterBase.Begin`.  The second component is the count handed to
`adapterBase.Begin`; `adapterBase` is outside `src/`, and by the spec's
scheduler contract that count is the number of workers started. -/
def customAdapter.Begin (a : customAdapter) (maxConcurrency : Int) : customAdapter × Int :=
  let useConcurrency := if !a.concurrent then 1 else maxConcurrency
  ({ a with originalConcurrency := maxConcurrency }, useConcurrency)

/-- The `customAdapterInitRequest` built by `WorkerStarting`: `operation`
from the bound direction, `concurrent` from the adapter's flag,
`concurrenttransfers` from `originalConcurrency`. -/
def mkInitRequest (a : customAdapter) : customAdapterInitRequest :=
  { operation := if a.direction = .Download then "download" else "upload",
    concurrent := a.concurrent,
    concurrentTransfers := a.originalConcurrency }

/-- A request value passed to `sendMessage` (`req interface{}`). -/
inductive ReqMsg where
  | initR (r : customAdapterInitRequest)
  | uploadR (r : customAdapterUploadRequest)
  | downloadR (r : customAdapterDownloadRequest)
  | terminateR (r : customAdapterTerminateRequest)
deriving DecidableEq, Repr

/-- Go `json.Marshal` of a request value. -/
def marshalReq : ReqMsg → JVal
  | .initR r => marshalInitRequest r
  | .uploadR r => marshalUploadRequest r
  | .downloadR r => marshalDownloadRequest r
  | .terminateR r => marshalTerminateRequest r

/-- Go `sendMessage`: marshal the request (which cannot fail for these
message types), append a single `'\n'` and write the result to the process's
stdin.  The value is the exact byte sequence written; the outcome of the
write itself is supplied by the environment at each call site. -/
def sendMessage (req : ReqMsg) : List Char :=
  encodeJVal (marshalReq req) ++ ['\n']

/-- The loop of `readResponse` over `possResps`: index of the first candidate
the line unmarshals into without error, together with the candidate slice
after that in-place unmarshal. -/
def firstDecode (v : JVal) : List GoDyn → Option (Nat × List GoDyn)
  | [] => none
  | d :: rest =>
    match decodeInto v d with
    | some d' => some (0, d' :: rest)
    | none =>
      match firstDecode v rest with
      | some (i, rest') => some (i + 1, d :: rest')
      | none => none

/-- Processing of one read line by `readResponse`: a read error is returned
as is; a line no candidate unmarshals (including a syntactically invalid
line) is the protocol error `Response did not match any of possible
responses`. -/
def readResponseStep (ev : ReadEvent) (possResps : List GoDyn) :
    Except GoErr (Nat × List GoDyn) :=
  match ev with
  | .ioError e => .error e
  | .badLine => .error .noMatch
  | .line v =>
    match firstDecode v possResps with
    | some (i, poss') => .ok (i, poss')
    | none => .error .noMatch

/-- Go `readResponse`: read exactly one line from the buffered output and
return the index of the first candidate it unmarshals into (plus the updated
candidates) or the error.  The second component is the rest of the output
stream. -/
def readResponse (stream : List ReadEvent) (possResps : List GoDyn) :
    (Except GoErr (Nat × List GoDyn)) × List ReadEvent :=
  match stream with
  | [] => (.error .eof, [])
  | ev :: rest => (readResponseStep ev possResps, rest)

/-- Go `exchangeMessage`: send a request and, when `resp` is non-nil, perform
exactly one `readResponse` against the single-candidate list `[resp]`.
`sendErr` is the environment-supplied outcome of the stdin write; the bytes
written are recorded in the callers' traces. -/
def exchangeMessage (sendErr : Option GoErr) (stream : List ReadEvent) (resp : Option GoDyn) :
    (Except GoErr (Option GoDyn)) × List ReadEvent :=
  match sendErr with
  | some e => (.error e, stream)
  | none =>
    match resp with
    | none => (.ok none, stream)
    | some d =>
      match readResponse stream [d] with
      | (.error e, rest) => (.error e, rest)
      | (.ok (_, poss'), rest) => (.ok poss'.head?, rest)

/-- Go struct `customAdapterWorkerContext`; the model keeps the context's
observable content, the remaining output of `bufferedOut` (the `cmd`,
`stdout` and `stdin` handles are modelled by the environments). -/
structure customAdapterWorkerContext where
  bufferedOut : List ReadEvent

/-- Environment of one `WorkerStarting` call: the outcome of each
process/pipe setup step, of the init-request write, and the process's output
stream. -/
structure StartEnv where
  stdoutPipeErr : Option GoErr
  stdinPipeErr : Option GoErr
  startErr : Option GoErr
  initSendErr : Option GoErr
  outputStream : List ReadEvent

/-- Go `abortWorkerProcess`: close both pipes (results discarded) and kill
the process. -/
def abortWorkerProcess : List Action := [.closedStdin, .closedStdout, .killed]

/-- Go `WorkerStarting`: start the process, send the init request, read one
`customAdapterInitResponse` and return the context.  After a successful
exchange the populated init response is dropped: the source never inspects
`initResp.Error`, so an error-carrying init response still yields
`(ctx, nil)`. -/
def WorkerStarting (a : customAdapter) (env : StartEnv) :
    (Except GoErr customAdapterWorkerContext) × List Action :=
  match env.stdoutPipeErr with
  | some e => (.error (.wrapped "Failed to get stdout for custom transfer command" e), [])
  | none =>
    match env.stdinPipeErr with
    | some e => (.error (.wrapped "Failed to get stdin for custom transfer command" e), [])
    | none =>
      match env.startErr with
      | some e => (.error (.wrapped "Failed to start custom transfer command" e), [])
      | none =>
        let initReq := mkInitRequest a
        match exchangeMessage env.initSendErr env.outputStream
            (some (.ptrInitResp zeroInitResponse)) with
        | (.error e, _) => (.error e, .sentInit initReq :: abortWorkerProcess)
        | (.ok _, rest) => (.ok ⟨rest⟩, [.sentInit initReq])

/-- Environment of one worker shutdown: the outcome of the terminate-request
write, of each pipe close, and of `cmd.Wait`. -/
structure EndEnv where
  termSendErr : Option GoErr
  stdinCloseErr : Option GoErr
  stdoutCloseErr : Option GoErr
  waitErr : Option GoErr

/-- Go `shutdownWorkerProcess`: send `TerminateRequest{complete: true}` (no
response is read), then close both pipes — the two `Close` results are
discarded by the source, so `stdinCloseErr` and `stdoutCloseErr` cannot
influence the result — and return the outcome of `cmd.Wait`. -/
def shutdownWorkerProcess (env : EndEnv) : Option GoErr × List Action :=
  match exchangeMessage env.termSendErr [] none with
  | (.error e, _) => (some e, [.sentTerminate true])
  | (.ok _, _) => (env.waitErr, [.sentTerminate true, .closedStdin, .closedStdout, .waited])

/-- Argument passed to `WorkerEnding` (`ctx interface{}`): a genuine
`*customAdapterWorkerContext` or a value of the wrong dynamic type (the
two-value type assertion in the source does not panic). -/
inductive CtxArg where
  | custom (c : customAdapterWorkerContext)
  | wrongType

/-- Go `WorkerEnding`: attempt the graceful shutdown; on any shutdown error
fall back to `abortWorkerProcess`.  The function returns nothing — a shutdown
failure is logged, never propagated — so its value is just the trace of
actions taken on the process and pipes. -/
def WorkerEnding (ctx : CtxArg) (env : EndEnv) : List Action :=
  match ctx with
  | .wrongType => []
  | .custom _ =>
    match shutdownWorkerProcess env with
    | (none, acts) => acts
    | (some _, acts) => acts ++ abortWorkerProcess

/-- Server object record of one transfer unit (`api.ObjectResource`, outside
`src/`): oid, size, and the pre-resolved rel actions, modelled from the
spec's transfer-unit description. -/
structure LfsObject where
  oid : String
  size : Int
  actions : List (String × LinkRelation)

/-- Go `t.Object.Rel(name)`: look up a pre-resolved resource action. -/
def LfsObject.rel (o : LfsObject) (name : String) : Option LinkRelation :=
  (o.actions.find? fun kv => kv.1 = name).map fun kv => kv.2

/-- One transfer unit handed to `DoTransfer` (`*Transfer`): display name and
object record. -/
structure Transfer where
  name : String
  object : LfsObject

/-- Result of one `DoTransfer` call: normal return, an error return, or a Go
run-time panic. -/
inductive Outcome where
  | ok
  | failed (e : GoErr)
  | panicked (msg : String)
deriving DecidableEq, Repr

/-- Observable side effects of one `DoTransfer` call: bytes written by
`sendMessage`, progress-callback invocations
`cb(name, totalSize, readSoFar, readSinceLast)` in order, and the invocation
counts of `authOkFunc` and `api.VerifyUpload`. -/
structure XferEffects where
  sentLines : List (List Char)
  progressCalls : List (String × Int × Int × Int)
  authOkCalls : Nat
  verifyCalls : Nat
deriving DecidableEq, Repr

/-- The effects value before anything happened. -/
def noEffects : XferEffects := ⟨[], [], 0, 0⟩

/-- Environment of one `DoTransfer` call: outcome of the request write and of
`api.VerifyUpload` (the verification collaborator is outside `src/`, modelled
from the spec as an object-to-optional-error call). -/
structure XferEnv where
  sendErr : Option GoErr
  verifyResult : Option GoErr

/-- Message of the run-time panic raised by a failed one-value type
assertion. -/
def interfaceConversionMsg : String := "interface conversion"

/-- The response loop of `DoTransfer` (`for !complete`), one iteration per
line of the remaining output.  `possResps` is the candidate slice allocated
once before the loop; its pointees persist across iterations exactly as in
the source.  The extractions `possResps[0].(customAdapterProgressResponse)`
and `possResps[0].(customAdapterTransferResponse)` — the source reads index 0
in both cases — are the one-value assertions modelled by `assertValProgress`
and `assertValTransfer`; when they fail the loop ends in `Outcome.panicked`
as the Go program would.  An `Outcome.ok` means the loop set `complete` and
exited; the post-loop verification is applied by `DoTransfer`. -/
def xferLoop (t : Transfer) (hasCb hasAuthCb : Bool) :
    List ReadEvent → List GoDyn → Bool → XferEffects → Outcome × XferEffects
  | [], _, _, eff => (.failed .eof, eff)
  | ev :: rest, possResps, authCalled, eff =>
    match readResponseStep ev possResps with
    | .error e => (.failed e, eff)
    | .ok (respIdx, poss') =>
      let first := poss'.headD (.ptrProgressResp zeroProgressResponse)
      if respIdx = 0 then
        match assertValProgress first with
        | none => (.panicked interfaceConversionMsg, eff)
        | some prog =>
          if prog.oid ≠ t.object.oid then
            (.failed (.unexpectedOid prog.oid t.object.oid), eff)
          else
            let eff :=
              if hasCb then
                { eff with progressCalls := eff.progressCalls ++
                    [(t.name, t.object.size, prog.bytesSoFar, prog.bytesSinceLast)] }
              else eff
            let wasAuthOk := decide (0 < prog.bytesSoFar)
            let authNow := wasAuthOk && hasAuthCb && !authCalled
            let eff := if authNow then { eff with authOkCalls := eff.authOkCalls + 1 } else eff
            xferLoop t hasCb hasAuthCb rest poss' (authCalled || authNow) eff
      else if respIdx = 1 then
        match assertValTransfer first with
        | none => (.panicked interfaceConversionMsg, eff)
        | some comp =>
          if comp.oid ≠ t.object.oid then
            (.failed (.unexpectedOid comp.oid t.object.oid), eff)
          else
            match comp.error with
            | some oe => (.failed (.transferError oe), eff)
            | none =>
              let authNow := hasAuthCb && !authCalled
              let eff := if authNow then { eff with authOkCalls := eff.authOkCalls + 1 } else eff
              (.ok, eff)
      else
        xferLoop t hasCb hasAuthCb rest poss' authCalled eff

/-- Go `DoTransfer`: nil and dynamic-type checks on the context, request
construction (download or upload, requiring the pre-resolved action), one
`sendMessage`, the response loop, and — only for the Upload direction — the
`api.VerifyUpload` call after a completed loop.  `objectPath` models
`localstorage.Objects().ObjectPath` (outside `src/`), the local on-disk path
resolver used for uploads; `hasCb` and `hasAuthCb` are the non-nilness of the
`cb` and `authOkFunc` arguments. -/
def DoTransfer (a : customAdapter) (objectPath : String → String)
    (ctx : Option CtxArg) (t : Transfer) (hasCb hasAuthCb : Bool)
    (env : XferEnv) : Outcome × XferEffects :=
  match ctx with
  | none => (.failed .notInitialized, noEffects)
  | some .wrongType => (.failed .wrongContextType, noEffects)
  | some (.custom customCtx) =>
    let reqChoice : Except GoErr ReqMsg :=
      match a.direction with
      | .Download =>
        match t.object.rel "download" with
        | none => .error .objectNotFound
        | some r => .ok (.downloadR ⟨t.object.oid, t.object.size, some r⟩)
      | .Upload =>
        match t.object.rel "upload" with
        | none => .error .objectNotFound
        | some r =>
          .ok (.uploadR ⟨t.object.oid, t.object.size, objectPath t.object.oid, some r⟩)
    match reqChoice with
    | .error e => (.failed e, noEffects)
    | .ok req =>
      let eff0 : XferEffects := { noEffects with sentLines := [sendMessage req] }
      match env.sendErr with
      | some e => (.failed e, eff0)
      | none =>
        let possResps : List GoDyn :=
          [.ptrProgressResp zeroProgressResponse, .ptrTransferResp zeroTransferResponse]
        match xferLoop t hasCb hasAuthCb customCtx.bufferedOut possResps false eff0 with
        | (.ok, eff) =>
          match a.direction with
          | .Upload =>
            let eff := { eff with verifyCalls := eff.verifyCalls + 1 }
            (match env.verifyResult with
             | none => .ok
             | some e => .failed e, eff)
          | .Download => (.ok, eff)
        | (.failed e, eff) => (.failed e, eff)
        | (.panicked m, eff) => (.panicked m, eff)

/-- The zero-valued candidate `readResponse` would be handed for a request
value's own type (used to state the round-trip property). -/
def zeroCandidateOf : ReqMsg → GoDyn
  | .initR _ => .ptrInitReq zeroInitRequest
  | .uploadR _ => .ptrUploadReq zeroUploadRequest
  | .downloadR _ => .ptrDownloadReq zeroDownloadRequest
  | .terminateR _ => .ptrTerminateReq zeroTerminateRequest

/-- The candidate value after a round trip that reproduced the request. -/
def populatedOf : ReqMsg → GoDyn
  | .initR r => .ptrInitReq r
  | .uploadR r => .ptrUploadReq r
  | .downloadR r => .ptrDownloadReq r
  | .terminateR r => .ptrTerminateReq r

/-! Helper lemmas. -/

theorem digitChar_ne_nl (n : Nat) : digitChar n ≠ '\n' := by
  unfold digitChar
  split <;> decide

theorem hexDigit_ne_nl (n : Nat) : hexDigit n ≠ '\n' := by
  unfold hexDigit
  split <;> decide

theorem nl_not_mem_natChars (n : Nat) : '\n' ∉ natChars n := by
  induction n using Nat.strong_induction_on with
  | _ n ih =>
    rw [natChars]
    split
    · simp [digitChar_ne_nl n |>.symm]
    · intro h
      rcases List.mem_append.mp h with h | h
      · exact ih (n / 10) (Nat.div_lt_self (by omega) (by omega)) h
      · simp at h
        exact digitChar_ne_nl _ h.symm

theorem nl_not_mem_intChars (n : Int) : '\n' ∉ intChars n := by
  intro h
  rcases List.mem_append.mp h with h | h
  · split at h <;> simp at h
  · exact nl_not_mem_natChars _ h

theorem nl_not_mem_escapeChar (c : Char) : '\n' ∉ escapeChar c := by
  unfold escapeChar
  split_ifs with h1 h2 h3 h4 h5 h6 h7 h8 h9
  · decide
  · decide
  · decide
  · decide
  · decide
  · intro h
    simp only [List.mem_cons] at h
    rcases h with h | h | h | h | h | h | h
    · exact absurd h (by decide)
    · exact absurd h (by decide)
    · exact absurd h (by decide)
    · exact absurd h (by decide)
    · exact hexDigit_ne_nl _ h.symm
    · exact hexDigit_ne_nl _ h.symm
    · exact List.not_mem_nil _ h
  · decide
  · decide
  · decide
  · simp only [List.mem_singleton]
    intro h
    exact h3 h.symm

theorem nl_not_mem_escapeString (l : List Char) : '\n' ∉ escapeString l := by
  intro h
  rcases List.mem_flatMap.mp h with ⟨c, _, hc⟩
  exact nl_not_mem_escapeChar c hc

theorem nl_not_mem_member (k : String) (v : JVal) (hv : '\n' ∉ encodeJVal v) :
    '\n' ∉ '"' :: escapeString k.data ++ '"' :: ':' :: encodeJVal v := by
  intro h
  simp only [List.cons_append, List.mem_cons, List.mem_append] at h
  rcases h with h | h | h | h | h
  · exact absurd h (by decide)
  · exact nl_not_mem_escapeString _ h
  · exact absurd h (by decide)
  · exact absurd h (by decide)
  · exact hv h

mutual

theorem nl_not_mem_encodeJVal : (v : JVal) → '\n' ∉ encodeJVal v
  | .str s => by
    rw [encodeJVal]
    intro h
    simp only [List.cons_append, List.mem_cons, List.mem_append, List.mem_singleton] at h
    rcases h with h | h | h
    · exact absurd h (by decide)
    · exact nl_not_mem_escapeString _ h
    · exact absurd h (by decide)
  | .int n => by rw [encodeJVal]; exact nl_not_mem_intChars n
  | .bool b => by rw [encodeJVal]; cases b <;> decide
  | .null => by rw [encodeJVal]; decide
  | .obj fs => by
    rw [encodeJVal]
    intro h
    simp only [List.cons_append, List.mem_cons, List.mem_append, List.mem_singleton] at h
    rcases h with h | h | h
    · exact absurd h (by decide)
    · exact nl_not_mem_encodeFields fs h
    · exact absurd h (by decide)
termination_by v => sizeOf v
decreasing_by all_goals simp_wf

theorem nl_not_mem_encodeFields : (fs : List (String × JVal)) → '\n' ∉ encodeFields fs
  | [] => by rw [encodeFields]; simp
  | [(k, v)] => by
    rw [encodeFields]
    exact nl_not_mem_member k v (nl_not_mem_encodeJVal v)
  | (k, v) :: kv2 :: rest => by
    rw [encodeFields]
    · intro h
      rcases List.mem_append.mp h with h | h
      · exact nl_not_mem_member k v (nl_not_mem_encodeJVal v) h
      · simp only [List.mem_cons] at h
        rcases h with h | h
        · exact absurd h (by decide)
        · exact nl_not_mem_encodeFields (kv2 :: rest) h
    · simp
termination_by fs => sizeOf fs
decreasing_by all_goals (simp_wf <;> omega)

end

theorem nl_not_mem_marshalReq (req : ReqMsg) : '\n' ∉ encodeJVal (marshalReq req) :=
  nl_not_mem_encodeJVal (marshalReq req)

theorem decodeHeaderPairs_map (h : List (String × String)) :
    decodeHeaderPairs (h.map fun kv => (kv.1, JVal.str kv.2)) = some h := by
  induction h with
  | nil => rfl
  | cons kv rest ih => simp [decodeHeaderPairs, ih]

theorem decodeLinkRelationInto_marshal (l : LinkRelation) :
    decodeLinkRelationInto (marshalLinkRelation l) zeroLinkRelation = some l := by
  obtain ⟨href, header⟩ := l
  calc decodeLinkRelationInto (marshalLinkRelation ⟨href, header⟩) zeroLinkRelation
      = ((decodeHeaderPairs (header.map fun kv => (kv.1, JVal.str kv.2))).map
          (fun h => ({ href := href, header := h } : LinkRelation))).bind some := rfl
    _ = some ⟨href, header⟩ := by rw [decodeHeaderPairs_map]; rfl

theorem decodeInitRequestInto_marshal (r : customAdapterInitRequest) :
    decodeInitRequestInto (marshalInitRequest r) zeroInitRequest = some r := rfl

theorem decodeUploadRequestInto_marshal (r : customAdapterUploadRequest) :
    decodeUploadRequestInto (marshalUploadRequest r) zeroUploadRequest = some r := by
  obtain ⟨oid, size, path, action⟩ := r
  cases action with
  | none => rfl
  | some l =>
    calc decodeUploadRequestInto (marshalUploadRequest ⟨oid, size, path, some l⟩)
          zeroUploadRequest
        = ((decodeLinkRelationInto (marshalLinkRelation l) zeroLinkRelation).map
            (fun lr => ({ oid := oid, size := size, path := path, action := some lr } :
              customAdapterUploadRequest))).bind some := rfl
      _ = some ⟨oid, size, path, some l⟩ := by rw [decodeLinkRelationInto_marshal]; rfl

theorem decodeDownloadRequestInto_marshal (r : customAdapterDownloadRequest) :
    decodeDownloadRequestInto (marshalDownloadRequest r) zeroDownloadRequest = some r := by
  obtain ⟨oid, size, action⟩ := r
  cases action with
  | none => rfl
  | some l =>
    calc decodeDownloadRequestInto (marshalDownloadRequest ⟨oid, size, some l⟩)
          zeroDownloadRequest
        = ((decodeLinkRelationInto (marshalLinkRelation l) zeroLinkRelation).map
            (fun lr => ({ oid := oid, size := size, action := some lr } :
              customAdapterDownloadRequest))).bind some := rfl
      _ = some ⟨oid, size, some l⟩ := by rw [decodeLinkRelationInto_marshal]; rfl

theorem decodeTerminateRequestInto_marshal (r : customAdapterTerminateRequest) :
    decodeTerminateRequestInto (marshalTerminateRequest r) zeroTerminateRequest = some r := rfl

theorem decodeInto_marshalReq (req : ReqMsg) :
    decodeInto (marshalReq req) (zeroCandidateOf req) = some (populatedOf req) := by
  cases req with
  | initR r =>
    calc decodeInto (marshalReq (.initR r)) (zeroCandidateOf (.initR r))
        = (decodeInitRequestInto (marshalInitRequest r) zeroInitRequest).map
            GoDyn.ptrInitReq := rfl
      _ = some (populatedOf (.initR r)) := by rw [decodeInitRequestInto_marshal]; rfl
  | uploadR r =>
    calc decodeInto (marshalReq (.uploadR r)) (zeroCandidateOf (.uploadR r))
        = (decodeUploadRequestInto (marshalUploadRequest r) zeroUploadRequest).map
            GoDyn.ptrUploadReq := rfl
      _ = some (populatedOf (.uploadR r)) := by rw [decodeUploadRequestInto_marshal]; rfl
  | downloadR r =>
    calc decodeInto (marshalReq (.downloadR r)) (zeroCandidateOf (.downloadR r))
        = (decodeDownloadRequestInto (marshalDownloadRequest r) zeroDownloadRequest).map
            GoDyn.ptrDownloadReq := rfl
      _ = some (populatedOf (.downloadR r)) := by rw [decodeDownloadRequestInto_marshal]; rfl
  | terminateR r =>
    calc decodeInto (marshalReq (.terminateR r)) (zeroCandidateOf (.terminateR r))
        = (decodeTerminateRequestInto (marshalTerminateRequest r) zeroTerminateRequest).map
            GoDyn.ptrTerminateReq := rfl
      _ = some (populatedOf (.terminateR r)) := by rw [decodeTerminateRequestInto_marshal]; rfl

theorem firstDecode_spec (v : JVal) :
    ∀ (poss : List GoDyn) (i : Nat) (poss' : List GoDyn),
      firstDecode v poss = some (i, poss') →
      ∃ d d', poss[i]? = some d ∧ decodeInto v d = some d' ∧
        ∀ j, j < i → ∀ dj, poss[j]? = some dj → decodeInto v dj = none := by
  intro poss
  induction poss with
  | nil => intro i p h; simp [firstDecode] at h
  | cons d rest ih =>
    intro i p h
    rw [firstDecode] at h
    cases hd : decodeInto v d with
    | some d' =>
      rw [hd] at h
      simp only [Option.some.injEq, Prod.mk.injEq] at h
      obtain ⟨hi, _⟩ := h
      subst hi
      exact ⟨d, d', by simp, hd, fun j hj => by omega⟩
    | none =>
      rw [hd] at h
      cases hf : firstDecode v rest with
      | none => rw [hf] at h; simp at h
      | some ip =>
        obtain ⟨i2, rest2⟩ := ip
        rw [hf] at h
        simp only [Option.some.injEq, Prod.mk.injEq] at h
        obtain ⟨hi, _⟩ := h
        subst hi
        obtain ⟨dd, dd', hget, hdec, hbefore⟩ := ih i2 rest2 hf
        refine ⟨dd, dd', by simpa using hget, hdec, ?_⟩
        intro j hj dj hget2
        cases j with
        | zero =>
          simp only [List.getElem?_cons_zero, Option.some.injEq] at hget2
          exact hget2 ▸ hd
        | succ j2 =>
          exact hbefore j2 (by omega) dj (by simpa using hget2)

theorem firstDecode_none (v : JVal) :
    ∀ poss : List GoDyn, (∀ d ∈ poss, decodeInto v d = none) → firstDecode v poss = none := by
  intro poss
  induction poss with
  | nil => intro h; rfl
  | cons d rest ih =>
    intro h
    rw [firstDecode, h d (by simp), ih (fun x hx => h x (by simp [hx]))]



/-! Claim theorems. -/

/-- Claim C1: the spec states that an error-carrying `InitResponse` (like a
send/receive failure) makes `WorkerStarting` abort the context and fail.  The
code does not: after a successful exchange it never inspects
`initResp.Error`.  At an init response line carrying the structured error
`unsupported operation`, worker start returns the context as usable (`.ok`)
and the trace holds no abort action; the second conjunct checks that the
line really decodes to an error-carrying `customAdapterInitResponse`. -/
theorem WorkerStarting_accepts_error_init_response :
    WorkerStarting (newCustomAdapter "testagent" .Download "/usr/local/bin/agent" "" true)
        ⟨none, none, none, none,
         [.line (.obj [("error",
            .obj [("code", .int 2), ("message", .str "unsupported operation")])])]⟩
      = (.ok ⟨[]⟩,
         [.sentInit (mkInitRequest
            (newCustomAdapter "testagent" .Download "/usr/local/bin/agent" "" true))])
  ∧ decodeInitResponseInto
        (.obj [("error", .obj [("code", .int 2), ("message", .str "unsupported operation")])])
        zeroInitResponse
      = some ⟨some ⟨2, "unsupported operation"⟩⟩ :=
  ⟨rfl, rfl⟩

/-- Claim C2: the dynamic-type assertions on `possResps[0]` are claimed to
always succeed on decoded response lines.  They never do: the candidates are
pointers and the assertions name the bare struct types, so the first decoded
line panics.  Evaluated at a well-formed progress response carrying the
request's oid: `DoTransfer` ends in `Outcome.panicked` with no callback
invoked. -/
theorem DoTransfer_panics_on_progress_response :
    DoTransfer (newCustomAdapter "testagent" .Download "/usr/local/bin/agent" "" true)
        (fun _ => "/tmp/lfs/objects/abc")
        (some (.custom ⟨[.line (.obj [("oid", .str "abc"),
          ("bytesSoFar", .int 3), ("bytesSinceLast", .int 3)])]⟩))
        ⟨"file.bin", ⟨"abc", 10485760, [("download", ⟨"https://example.com/dl/abc", []⟩)]⟩⟩
        true true ⟨none, none⟩
      = (.panicked interfaceConversionMsg,
         { noEffects with sentLines :=
             [sendMessage (.downloadR ⟨"abc", 10485760,
                some ⟨"https://example.com/dl/abc", []⟩⟩)] }) :=
  rfl

/-- Claim C3: for a stream of progress messages followed by one success
completion (all with the request's oid) the progress callback is claimed to
fire once per message and the auth callback exactly once.  Instead the first
response line already panics at the value-type assertion: no progress
callback, no auth callback, no completed transfer. -/
theorem DoTransfer_panics_on_success_stream :
    DoTransfer (newCustomAdapter "testagent" .Download "/usr/local/bin/agent" "" true)
        (fun _ => "/tmp/lfs/objects/abc")
        (some (.custom ⟨[.line (.obj [("oid", .str "abc"),
            ("bytesSoFar", .int 3145728), ("bytesSinceLast", .int 3145728)]),
          .line (.obj [("oid", .str "abc")])]⟩))
        ⟨"file.bin", ⟨"abc", 10485760, [("download", ⟨"https://example.com/dl/abc", []⟩)]⟩⟩
        true true ⟨none, none⟩
      = (.panicked interfaceConversionMsg,
         { noEffects with sentLines :=
             [sendMessage (.downloadR ⟨"abc", 10485760,
                some ⟨"https://example.com/dl/abc", []⟩⟩)] }) :=
  rfl

/-- Claim C4: `readResponse` reads exactly one line (the rest of the stream
is untouched), returns the index of the first candidate the line decodes
into — index 0 whenever the list is ordered `[Progress, Completion]` and the
line decodes as both — and when no candidate decodes it fails with the fatal
protocol error `GoErr.noMatch`, not a transfer-level embedded error. -/
theorem readResponse_first_match_spec :
    (∀ stream poss, (readResponse stream poss).2 = stream.tail)
  ∧ (∀ v rest poss i poss',
       (readResponse (.line v :: rest) poss).1 = .ok (i, poss') →
       ∃ d d', poss[i]? = some d ∧ decodeInto v d = some d' ∧
         ∀ j, j < i → ∀ dj, poss[j]? = some dj → decodeInto v dj = none)
  ∧ (∀ v rest p x, decodeInto v (.ptrProgressResp p) ≠ none →
       decodeInto v (.ptrTransferResp x) ≠ none →
       ∃ d', (readResponse (.line v :: rest) [.ptrProgressResp p, .ptrTransferResp x]).1
         = .ok (0, [d', .ptrTransferResp x]))
  ∧ (∀ v rest poss, (∀ d ∈ poss, decodeInto v d = none) →
       (readResponse (.line v :: rest) poss).1 = .error .noMatch) := by
  refine ⟨?_, ?_, ?_, ?_⟩
  · intro stream poss
    cases stream <;> rfl
  · intro v rest poss i poss' h
    have h2 : readResponseStep (.line v) poss = .ok (i, poss') := h
    rw [readResponseStep] at h2
    cases hfd : firstDecode v poss with
    | none => rw [hfd] at h2; exact absurd h2 (by simp)
    | some ip =>
      obtain ⟨i0, p0⟩ := ip
      rw [hfd] at h2
      simp only [Except.ok.injEq, Prod.mk.injEq] at h2
      obtain ⟨hi, _⟩ := h2
      exact hi ▸ firstDecode_spec v poss i0 p0 hfd
  · intro v rest p x h1 h2
    cases hd : decodeInto v (.ptrProgressResp p) with
    | none => exact absurd hd h1
    | some d' =>
      refine ⟨d', ?_⟩
      show readResponseStep (.line v) [.ptrProgressResp p, .ptrTransferResp x] = _
      rw [readResponseStep, firstDecode, hd]
  · intro v rest poss hall
    show readResponseStep (.line v) poss = _
    rw [readResponseStep, firstDecode_none v poss hall]

/-- Claim C4 witness: the spec theorem applied at a line decodable as both
candidates (index 0 comes out) and at a line no candidate decodes
(`noMatch` comes out). -/
theorem readResponse_first_match_checked :
    (readResponse [.line (.obj [("oid", .str "x")])]
        [.ptrProgressResp zeroProgressResponse, .ptrTransferResp zeroTransferResponse]).2 = []
  ∧ (∃ d', (readResponse [.line (.obj [("oid", .str "x")])]
        [.ptrProgressResp zeroProgressResponse, .ptrTransferResp zeroTransferResponse]).1
        = .ok (0, [d', .ptrTransferResp zeroTransferResponse]))
  ∧ (readResponse [.line (.int 3)] [.ptrProgressResp zeroProgressResponse]).1
      = .error .noMatch :=
  ⟨readResponse_first_match_spec.1 _ _,
   readResponse_first_match_spec.2.2.1 _ [] _ _ (by decide) (by decide),
   readResponse_first_match_spec.2.2.2 _ [] _ (by decide)⟩

/-- Claim C5: an oid mismatch in a response is claimed to fail the transfer
with the protocol-violation error `unexpectedOid`.  The code panics at the
value-type assertion before the oid comparison is ever reached: at a progress
response with oid `def` against a request for `abc`, the outcome is
`Outcome.panicked`, not `Outcome.failed (GoErr.unexpectedOid ..)`. -/
theorem DoTransfer_panics_before_oid_check :
    DoTransfer (newCustomAdapter "testagent" .Download "/usr/local/bin/agent" "" true)
        (fun _ => "/tmp/lfs/objects/abc")
        (some (.custom ⟨[.line (.obj [("oid", .str "def"),
          ("bytesSoFar", .int 1), ("bytesSinceLast", .int 1)])]⟩))
        ⟨"file.bin", ⟨"abc", 10485760, [("download", ⟨"https://example.com/dl/abc", []⟩)]⟩⟩
        true true ⟨none, none⟩
      = (.panicked interfaceConversionMsg,
         { noEffects with sentLines :=
             [sendMessage (.downloadR ⟨"abc", 10485760,
                some ⟨"https://example.com/dl/abc", []⟩⟩)] }) :=
  rfl

/-- Claim C6: `Begin` downgrades the requested worker count to exactly 1 when
the adapter's concurrency flag is false, and passes every requested count
through unchanged when the flag is true. -/
theorem Begin_concurrency_downgrade (a : customAdapter) (n : Int) :
    (a.concurrent = false → (customAdapter.Begin a n).2 = 1)
  ∧ (a.concurrent = true → (customAdapter.Begin a n).2 = n) := by
  constructor <;> intro h <;> simp [customAdapter.Begin, h]

/-- Claim C6 witness: `Begin` with 4 requested workers starts 1 worker when
concurrency is disallowed and 4 when it is allowed. -/
theorem Begin_concurrency_downgrade_checked :
    (customAdapter.Begin
      (newCustomAdapter "testagent" .Download "/usr/local/bin/agent" "" false) 4).2 = 1
  ∧ (customAdapter.Begin
      (newCustomAdapter "testagent" .Download "/usr/local/bin/agent" "" true) 4).2 = 4 :=
  ⟨(Begin_concurrency_downgrade _ 4).1 rfl, (Begin_concurrency_downgrade _ 4).2 rfl⟩

/-- Claim C7: a successful upload completion is claimed to invoke
`api.VerifyUpload` exactly once.  The code cannot reach the verification
call: the completion line panics at the value-type assertion (it is even
decoded as a progress response first), so the loop never completes and
`verifyCalls` stays 0. -/
theorem DoTransfer_upload_never_reaches_verify :
    DoTransfer (newCustomAdapter "testagent" .Upload "/usr/local/bin/agent" "" true)
        (fun _ => "/tmp/lfs/objects/abc")
        (some (.custom ⟨[.line (.obj [("oid", .str "abc")])]⟩))
        ⟨"file.bin", ⟨"abc", 10485760, [("upload", ⟨"https://example.com/up/abc", []⟩)]⟩⟩
        true true ⟨none, none⟩
      = (.panicked interfaceConversionMsg,
         { noEffects with sentLines :=
             [sendMessage (.uploadR ⟨"abc", 10485760, "/tmp/lfs/objects/abc",
                some ⟨"https://example.com/up/abc", []⟩⟩)] }) :=
  rfl

/-- Claim C8 counterexample: with a failing stdin close (terminate write and
process wait both fine), `WorkerEnding` performs only the graceful path and
never kills the process — the close results are discarded — refuting that
every failing part of the graceful shutdown triggers the forced abort. -/
theorem WorkerEnding_ignores_close_failure :
    (⟨none, some (.ioErr "close stdin failed"), none, none⟩ : EndEnv).stdinCloseErr ≠ none
  ∧ WorkerEnding (.custom ⟨[]⟩) ⟨none, some (.ioErr "close stdin failed"), none, none⟩
      = [.sentTerminate true, .closedStdin, .closedStdout, .waited] := by
  exact ⟨by simp, rfl⟩

/-- Claim C8 (amended): `WorkerEnding` first attempts the graceful shutdown —
terminate request, closing both pipes with the close errors discarded, wait —
with `shutdownWorkerProcess` propagating the send failure or the nonzero wait
outcome as the shutdown error; whenever the send or the wait fails it falls
back to the forced abort, and the shutdown outcome is never handed to the
caller (the whole result is the action trace). -/
theorem WorkerEnding_graceful_then_abort (env : EndEnv) (c : customAdapterWorkerContext) :
    (shutdownWorkerProcess env).1
      = (match env.termSendErr with
         | some e => some e
         | none => env.waitErr)
  ∧ WorkerEnding (.custom c) env
      = (match env.termSendErr with
         | some _ => [.sentTerminate true] ++ abortWorkerProcess
         | none =>
           match env.waitErr with
           | none => [.sentTerminate true, .closedStdin, .closedStdout, .waited]
           | some _ => [.sentTerminate true, .closedStdin, .closedStdout, .waited]
               ++ abortWorkerProcess)
  ∧ ((Action.killed ∈ WorkerEnding (.custom c) env)
      ↔ (env.termSendErr.isSome ∨ env.waitErr.isSome)) := by
  obtain ⟨ts, sc, oc, w⟩ := env
  cases ts <;> cases w <;> exact ⟨rfl, rfl, by simp [WorkerEnding, shutdownWorkerProcess,
    exchangeMessage, abortWorkerProcess]⟩

/-- Claim C9: `sendMessage` serializes a request to exactly one JSON record
terminated by a single newline — the terminator is the only newline byte in
the write — and decoding that record back, as `readResponse` does against the
matching schema, reproduces the request's fields (the result is index 0 and
the candidate's pointee is the original request). -/
theorem sendMessage_single_line_roundtrip (req : ReqMsg) :
    (sendMessage req).count '\n' = 1
  ∧ (sendMessage req).getLast? = some '\n'
  ∧ readResponse [.line (marshalReq req)] [zeroCandidateOf req]
      = (.ok (0, [populatedOf req]), []) := by
  refine ⟨?_, ?_, ?_⟩
  · rw [sendMessage, List.count_append,
      List.count_eq_zero.mpr (nl_not_mem_marshalReq req)]
    rfl
  · rw [sendMessage]
    simp
  · show (readResponseStep (.line (marshalReq req)) [zeroCandidateOf req],
        ([] : List ReadEvent)) = _
    rw [readResponseStep, firstDecode, decodeInto_marshalReq req]

/-- Claim C10: the init request built at worker start reports
`concurrenttransfers` as the original requested concurrency recorded by
`Begin` — even when the flag is false and the effective count was downgraded
to 1 — and `concurrent` as the adapter's flag; a fresh adapter that never saw
`Begin` reports the constructor's 3; and on a successfully started process
the first trace action of `WorkerStarting` is sending exactly
`mkInitRequest a`. -/
theorem initRequest_reports_original_concurrency :
    (∀ (a : customAdapter) (n : Int),
        (mkInitRequest (customAdapter.Begin a n).1).concurrentTransfers = n
      ∧ (mkInitRequest (customAdapter.Begin a n).1).concurrent = a.concurrent)
  ∧ (∀ (name : String) (dir : Direction) (path args : String) (conc : Bool),
        (mkInitRequest (newCustomAdapter name dir path args conc)).concurrentTransfers = 3)
  ∧ (∀ (a : customAdapter) (stream : List ReadEvent),
        ((WorkerStarting a ⟨none, none, none, none, stream⟩).2).head?
          = some (.sentInit (mkInitRequest a))) := by
  refine ⟨fun a n => ⟨rfl, rfl⟩, fun _ _ _ _ _ => rfl, fun a stream => ?_⟩
  cases stream with
  | nil => rfl
  | cons ev rest =>
    cases hr : readResponseStep ev [.ptrInitResp zeroInitResponse] with
    | error e =>
      simp [WorkerStarting, exchangeMessage, readResponse, hr]
    | ok p =>
      simp [WorkerStarting, exchangeMessage, readResponse, hr]

end GitLfs
